import Mathlib

/-!
Verification of the night-sky simulator core (`sky_simulator.py` and
`sky_simulator_gui.py`).

The repository's in-scope logic is the `SkySimulator` class: loading a
magnitude-filtered star catalog, setting an observer location, and
`get_star_positions`, which normalizes a timestamp to UTC, queries an
external ephemeris per star, filters stars above the horizon, and derives
visual sizes (and, in the GUI variant, colors) from magnitudes.

The embedding below models magnitudes, angles and coordinates as rationals,
the external ephemeris (skyfield) as an oracle parameter, and Python's
`datetime.astimezone(timezone.utc)` by proleptic-Gregorian epoch arithmetic.
-/

namespace NightSky

/-- Day number of a proleptic-Gregorian civil date, days since 1970-01-01
(the arithmetic underlying Python `datetime` ordinal conversion). -/
def days_from_civil (y m d : ℤ) : ℤ :=
  let y2 := if m ≤ 2 then y - 1 else y
  let era := (if 0 ≤ y2 then y2 else y2 - 399) / 400
  let yoe := y2 - era * 400
  let doy := (153 * (m + (if 2 < m then -3 else 9)) + 2) / 5 + d - 1
  let doe := yoe * 365 + yoe / 4 - yoe / 100 + doy
  era * 146097 + doe - 719468

/-- Civil date (year, month, day) of a day number counted from 1970-01-01. -/
def civil_from_days (z : ℤ) : ℤ × ℤ × ℤ :=
  let z2 := z + 719468
  let era := (if 0 ≤ z2 then z2 else z2 - 146096) / 146097
  let doe := z2 - era * 146097
  let yoe := (doe - doe / 1460 + doe / 36524 - doe / 146096) / 365
  let y := yoe + era * 400
  let doy := doe - (365 * yoe + yoe / 4 - yoe / 100)
  let mp := (5 * doy + 2) / 153
  let d := doy - (153 * mp + 2) / 5 + 1
  let m := mp + (if mp < 10 then 3 else -9)
  (if m ≤ 2 then y + 1 else y, m, d)

/-- One row of the Hipparcos dataframe, as consumed by the simulator:
identifier, celestial coordinates and magnitude. -/
structure StarData where
  hip : ℤ
  ra_degrees : ℚ
  dec_degrees : ℚ
  magnitude : ℚ
deriving DecidableEq

/-- The observer location built by `set_observer_location`
(`earth + Topos(latitude, longitude, elevation)`). -/
structure Observer where
  latitude_degrees : ℚ
  longitude_degrees : ℚ
  elevation_m : ℚ
deriving DecidableEq

/-- The argument tuple passed to `self.ts.utc(...)`: calendar fields down to
whole seconds only. -/
structure TsTime where
  year : ℤ
  month : ℤ
  day : ℤ
  hour : ℤ
  minute : ℤ
  second : ℤ
deriving DecidableEq

/-- A Python `datetime`: calendar fields, microseconds, and an optional fixed
UTC offset in seconds (`none` models a naive datetime). -/
structure PyDatetime where
  year : ℤ
  month : ℤ
  day : ℤ
  hour : ℤ
  minute : ℤ
  second : ℤ
  microsecond : ℤ
  tzOffsetSeconds : Option ℤ
deriving DecidableEq

/-- Microseconds per civil day. -/
def microsPerDay : ℤ := 86400000000

/-- Microseconds since the epoch named by the datetime's own fields
(offset not yet applied). -/
def toEpochMicro (t : PyDatetime) : ℤ :=
  days_from_civil t.year t.month t.day * microsPerDay
    + t.hour * 3600000000 + t.minute * 60000000
    + t.second * 1000000 + t.microsecond

/-- Microseconds since the epoch of the UTC instant the datetime denotes. -/
def utcEpochMicro (t : PyDatetime) : ℤ :=
  toEpochMicro t - t.tzOffsetSeconds.getD 0 * 1000000

/-- Python `dt.astimezone(timezone.utc)` on an aware datetime: re-express the
same instant with a zero UTC offset. -/
def astimezoneUTC (t : PyDatetime) : PyDatetime :=
  let e := utcEpochMicro t
  let days := e.ediv microsPerDay
  let rem := e.emod microsPerDay
  let c := civil_from_days days
  { year := c.1, month := c.2.1, day := c.2.2
    hour := rem / 3600000000
    minute := rem / 60000000 % 60
    second := rem / 1000000 % 60
    microsecond := rem % 1000000
    tzOffsetSeconds := some 0 }

/-- The naive-datetime policy of `get_star_positions`:
`if time.tzinfo is None: time = time.replace(tzinfo=dt_timezone.utc)`. -/
def normalizeNaive (t : PyDatetime) : PyDatetime :=
  if t.tzOffsetSeconds = none then { t with tzOffsetSeconds := some 0 } else t

/-- The `TsTime` actually handed to the ephemeris time scale:
normalize naive to UTC, convert to UTC, keep fields down to whole seconds
(`self.ts.utc(utc_time.year, ..., utc_time.second)`). -/
def queryTsTime (time : PyDatetime) : TsTime :=
  let u := astimezoneUTC (normalizeNaive time)
  ⟨u.year, u.month, u.day, u.hour, u.minute, u.second⟩

/-- The external skyfield computation
`observer.observe(star).apparent().altaz()` abstracted as an oracle:
observer, query time and star row to (altitude °, azimuth °). -/
def EphemerisOracle : Type :=
  Observer → TsTime → StarData → ℚ × ℚ

/-- Mutable state of the `SkySimulator` class (the external `earth` and `ts`
handles carry no state the core reads back). -/
structure SkySimulator where
  stars_df : Option (List StarData)
  observer_location : Option Observer
  observer_coords : Option (ℚ × ℚ)

/-- The `load_star_catalog` method: store the catalog rows whose magnitude is
at most `max_magnitude`; the raw catalog itself comes from the external
hipparcos loader, so it is a parameter. -/
def load_star_catalog (sim : SkySimulator) (catalog : List StarData)
    (max_magnitude : ℚ) : SkySimulator :=
  { sim with stars_df := some (catalog.filter fun s => s.magnitude ≤ max_magnitude) }

/-- The `set_observer_location` method: assigns `observer_location` and
`observer_coords`, nothing else. -/
def set_observer_location (sim : SkySimulator) (latitude longitude : ℚ)
    (elevation : ℚ) : SkySimulator :=
  { sim with
    observer_location := some ⟨latitude, longitude, elevation⟩
    observer_coords := some (latitude, longitude) }

/-- `np.clip(x, lo, hi)` for scalars. -/
def np_clip (x lo hi : ℚ) : ℚ := min (max x lo) hi

/-- The magnitude-to-size computation
`sizes = np.clip(20 * (5 - magnitudes) + 1, 1, 50)`. -/
def star_size (m : ℚ) : ℚ := np_clip (20 * (5 - m) + 1) 1 50

/-- The magnitude-to-color chain of the GUI variant's loop body. -/
def star_color (m : ℚ) : String :=
  if m < 1 then "#87CEEB"
  else if m < 2 then "white"
  else if m < 3 then "#FFE4B5"
  else if m < 4 then "#FFA500"
  else "#FF6B6B"

/-- The per-star loop of `get_star_positions` (simple variant): keep
`(azimuth, altitude, magnitude)` for each catalog star whose apparent
altitude is strictly positive, in catalog order. -/
def visibleStars (eph : EphemerisOracle) (loc : Observer) (t : TsTime)
    (df : List StarData) : List (ℚ × ℚ × ℚ) :=
  df.filterMap fun sd =>
    let altaz := eph loc t sd
    if 0 < altaz.1 then some (altaz.2, altaz.1, sd.magnitude) else none

/-- `SkySimulator.get_star_positions` of `sky_simulator.py`: precondition
check, time normalization, horizon filter, then parallel arrays of azimuths,
altitudes and sizes (empty arrays when nothing is visible). The unused
`timezone: str` parameter of the Python signature is kept as `tz`. -/
def get_star_positions (eph : EphemerisOracle) (sim : SkySimulator)
    (time : PyDatetime) (_tz : String) :
    Except String (List ℚ × List ℚ × List ℚ) :=
  match sim.stars_df, sim.observer_location with
  | some df, some loc =>
    let t := queryTsTime time
    let visible := visibleStars eph loc t df
    if visible.isEmpty then
      Except.ok ([], [], [])
    else
      Except.ok (visible.map (fun v => v.1), visible.map (fun v => v.2.1),
        visible.map fun v => star_size v.2.2)
  | _, _ => Except.error "Must load star catalog and set observer location first"

/-- The per-star loop of the GUI variant: additionally records the color
derived from the star's magnitude. -/
def visibleStarsGui (eph : EphemerisOracle) (loc : Observer) (t : TsTime)
    (df : List StarData) : List (ℚ × ℚ × ℚ × String) :=
  df.filterMap fun sd =>
    let altaz := eph loc t sd
    if 0 < altaz.1 then
      some (altaz.2, altaz.1, sd.magnitude, star_color sd.magnitude)
    else none

/-- `SkySimulator.get_star_positions` of `sky_simulator_gui.py`: same as the
simple variant plus a parallel color array. -/
def get_star_positions_gui (eph : EphemerisOracle) (sim : SkySimulator)
    (time : PyDatetime) (_tz : String) :
    Except String (List ℚ × List ℚ × List ℚ × List String) :=
  match sim.stars_df, sim.observer_location with
  | some df, some loc =>
    let t := queryTsTime time
    let visible := visibleStarsGui eph loc t df
    if visible.isEmpty then
      Except.ok ([], [], [], [])
    else
      Except.ok (visible.map (fun v => v.1), visible.map (fun v => v.2.1),
        visible.map (fun v => star_size v.2.2.1),
        visible.map fun v => v.2.2.2)
  | _, _ => Except.error "Must load star catalog and set observer location first"

/-! ## Structural lemmas about the per-star loop -/

/-- The visible-star loop keeps exactly the catalog rows passing the horizon
filter, in catalog order, paired with their oracle azimuth/altitude. -/
theorem visibleStars_eq_filter_map (eph : EphemerisOracle) (loc : Observer)
    (t : TsTime) (df : List StarData) :
    visibleStars eph loc t df
      = (df.filter fun sd => decide (0 < (eph loc t sd).1)).map
          fun sd => ((eph loc t sd).2, (eph loc t sd).1, sd.magnitude) := by
  induction df with
  | nil => rfl
  | cons sd tl ih =>
    by_cases hp : 0 < (eph loc t sd).1 <;>
      simp [visibleStars, List.filterMap_cons, List.filter_cons, hp] <;>
      simpa [visibleStars] using ih

/-- GUI counterpart of `visibleStars_eq_filter_map`. -/
theorem visibleStarsGui_eq_filter_map (eph : EphemerisOracle) (loc : Observer)
    (t : TsTime) (df : List StarData) :
    visibleStarsGui eph loc t df
      = (df.filter fun sd => decide (0 < (eph loc t sd).1)).map
          fun sd => ((eph loc t sd).2, (eph loc t sd).1, sd.magnitude,
            star_color sd.magnitude) := by
  induction df with
  | nil => rfl
  | cons sd tl ih =>
    by_cases hp : 0 < (eph loc t sd).1 <;>
      simp [visibleStarsGui, List.filterMap_cons, List.filter_cons, hp] <;>
      simpa [visibleStarsGui] using ih

/-- Every entry of the visible-star loop records a strictly positive
altitude. -/
theorem visibleStars_alt_pos {eph : EphemerisOracle} {loc : Observer}
    {t : TsTime} {df : List StarData} {v : ℚ × ℚ × ℚ}
    (hv : v ∈ visibleStars eph loc t df) : 0 < v.2.1 := by
  rw [visibleStars_eq_filter_map] at hv
  rcases List.mem_map.mp hv with ⟨sd, hsd, rfl⟩
  have := List.of_mem_filter hsd
  simpa using this

/-- The visible-star loop yields one entry per catalog row passing the
horizon filter. -/
theorem visibleStars_length (eph : EphemerisOracle) (loc : Observer)
    (t : TsTime) (df : List StarData) :
    (visibleStars eph loc t df).length
      = df.countP fun sd => decide (0 < (eph loc t sd).1) := by
  rw [visibleStars_eq_filter_map, List.length_map, List.countP_eq_length_filter]

/-! ## Concrete fixtures used by witness theorems -/

/-- An ephemeris oracle placing every star at altitude 45°, azimuth 10°. -/
def ephUp : EphemerisOracle := fun _ _ _ => (45, 10)

/-- An ephemeris oracle placing every star at altitude −5°, azimuth 10°. -/
def ephDown : EphemerisOracle := fun _ _ _ => (-5, 10)

/-- A one-row catalog fixture: a star of magnitude 1. -/
def starW : StarData := ⟨1, 0, 0, 1⟩

/-- An observer fixture (roughly New York City, as in the repository demo). -/
def obsW : Observer := ⟨40, -74, 0⟩

/-- A fully initialized simulator fixture. -/
def simW : SkySimulator := ⟨some [starW], some obsW, some (40, -74)⟩

/-- A freshly constructed simulator: no catalog, no observer. -/
def simFresh : SkySimulator := ⟨none, none, none⟩

/-- A naive timestamp fixture: 2024-06-15 22:00:00 with no zone offset. -/
def timeW : PyDatetime := ⟨2024, 6, 15, 22, 0, 0, 0, none⟩

/-! ## Claims -/

/-- C1: every star emitted by `get_star_positions` has apparent altitude
strictly greater than 0°, and the output holds exactly one entry per catalog
star passing the altitude filter, so a star whose altitude is ≤ 0 never
appears in the output. -/
theorem getStarPositions_only_above_horizon
    (eph : EphemerisOracle) (sim : SkySimulator) (time : PyDatetime)
    (tz : String) (df : List StarData) (loc : Observer)
    (az alt sizes : List ℚ)
    (hdf : sim.stars_df = some df) (hloc : sim.observer_location = some loc)
    (h : get_star_positions eph sim time tz = Except.ok (az, alt, sizes)) :
    (∀ a ∈ alt, 0 < a) ∧
      alt.length = df.countP fun sd =>
        decide (0 < (eph loc (queryTsTime time) sd).1) := by
  simp only [get_star_positions, hdf, hloc] at h
  rw [← visibleStars_length eph loc (queryTsTime time) df]
  split at h
  case isTrue hemp =>
    rw [List.isEmpty_iff] at hemp
    simp only [Except.ok.injEq, Prod.mk.injEq] at h
    obtain ⟨-, h2, -⟩ := h
    subst h2
    simp [hemp]
  case isFalse hemp =>
    simp only [Except.ok.injEq, Prod.mk.injEq] at h
    obtain ⟨-, h2, -⟩ := h
    subst h2
    refine ⟨?_, by rw [List.length_map]⟩
    intro a ha
    rcases List.mem_map.mp ha with ⟨v, hv, rfl⟩
    exact visibleStars_alt_pos hv

/-- C1 witness: with a one-star catalog and an oracle reporting altitude 45°,
the emitted altitudes are all positive and there is one entry. -/
theorem getStarPositions_only_above_horizon_witness :
    (∀ a ∈ ([45] : List ℚ), 0 < a) ∧
      ([45] : List ℚ).length = [starW].countP fun sd =>
        decide (0 < (ephUp obsW (queryTsTime timeW) sd).1) :=
  getStarPositions_only_above_horizon ephUp simW timeW "UTC" [starW] obsW
    [10] [45] [50] rfl rfl
    (by norm_num [get_star_positions, simW, visibleStars, ephUp, starW, obsW,
      star_size, np_clip, List.filterMap_cons, List.filterMap_nil])

/-- C2: the sizes emitted by `get_star_positions` are exactly
`clamp(20 * (5 - m) + 1, 1, 50)` of the emitted magnitudes; in particular
magnitude 0.5 yields size 50 and magnitude 4.2 yields size 17. -/
theorem getStarPositions_size_formula
    (eph : EphemerisOracle) (sim : SkySimulator) (time : PyDatetime)
    (tz : String) (df : List StarData) (loc : Observer)
    (az alt sizes : List ℚ)
    (hdf : sim.stars_df = some df) (hloc : sim.observer_location = some loc)
    (h : get_star_positions eph sim time tz = Except.ok (az, alt, sizes)) :
    sizes = (visibleStars eph loc (queryTsTime time) df).map
        (fun v => min (max (20 * (5 - v.2.2) + 1) 1) 50) ∧
      star_size (1/2) = 50 ∧ star_size (21/5) = 17 := by
  refine ⟨?_, by norm_num [star_size, np_clip], by norm_num [star_size, np_clip]⟩
  simp only [get_star_positions, hdf, hloc] at h
  split at h
  case isTrue hemp =>
    rw [List.isEmpty_iff] at hemp
    simp only [Except.ok.injEq, Prod.mk.injEq] at h
    obtain ⟨-, -, h3⟩ := h
    subst h3
    simp [hemp]
  case isFalse hemp =>
    simp only [Except.ok.injEq, Prod.mk.injEq] at h
    obtain ⟨-, -, h3⟩ := h
    subst h3
    simp [star_size, np_clip]

/-- C2 witness: the concrete query emits size 50 for the magnitude-1 star,
and the boundary examples evaluate as the spec states. -/
theorem getStarPositions_size_formula_witness :
    ([50] : List ℚ) = (visibleStars ephUp obsW (queryTsTime timeW) [starW]).map
        (fun v => min (max (20 * (5 - v.2.2) + 1) 1) 50) ∧
      star_size (1/2) = 50 ∧ star_size (21/5) = 17 :=
  getStarPositions_size_formula ephUp simW timeW "UTC" [starW] obsW
    [10] [45] [50] rfl rfl
    (by norm_num [get_star_positions, simW, visibleStars, ephUp, starW, obsW,
      star_size, np_clip, List.filterMap_cons, List.filterMap_nil])

/-- C3: the color assigned to an emitted star is a total five-bucket step
function of its magnitude, half-open on the lower bound: m<1 sky-blue,
1≤m<2 white, 2≤m<3 moccasin, 3≤m<4 orange, m≥4 light red; in particular
m=1 gives white and m=4 gives light red, and the GUI variant's colors are
exactly this function of the magnitudes of the stars passing the horizon
filter. -/
theorem starColor_buckets :
    (∀ m : ℚ, m < 1 → star_color m = "#87CEEB") ∧
    (∀ m : ℚ, 1 ≤ m → m < 2 → star_color m = "white") ∧
    (∀ m : ℚ, 2 ≤ m → m < 3 → star_color m = "#FFE4B5") ∧
    (∀ m : ℚ, 3 ≤ m → m < 4 → star_color m = "#FFA500") ∧
    (∀ m : ℚ, 4 ≤ m → star_color m = "#FF6B6B") ∧
    star_color 1 = "white" ∧ star_color 4 = "#FF6B6B" ∧
    (∀ (eph : EphemerisOracle) (sim : SkySimulator) (time : PyDatetime)
      (tz : String) (df : List StarData) (loc : Observer)
      (az alt sizes : List ℚ) (colors : List String),
      sim.stars_df = some df → sim.observer_location = some loc →
      get_star_positions_gui eph sim time tz = Except.ok (az, alt, sizes, colors) →
      colors = (df.filter fun sd =>
          decide (0 < (eph loc (queryTsTime time) sd).1)).map
        fun sd => star_color sd.magnitude) := by
  refine ⟨fun m hm => by unfold star_color; split_ifs <;> first | rfl | linarith,
    fun m h1 h2 => by unfold star_color; split_ifs <;> first | rfl | linarith,
    fun m h1 h2 => by unfold star_color; split_ifs <;> first | rfl | linarith,
    fun m h1 h2 => by unfold star_color; split_ifs <;> first | rfl | linarith,
    fun m hm => by unfold star_color; split_ifs <;> first | rfl | linarith,
    by unfold star_color; split_ifs <;> first | rfl | linarith,
    by unfold star_color; split_ifs <;> first | rfl | linarith,
    ?_⟩
  intro eph sim time tz df loc az alt sizes colors hdf hloc h
  simp only [get_star_positions_gui, hdf, hloc] at h
  split at h
  case isTrue hemp =>
    rw [List.isEmpty_iff, visibleStarsGui_eq_filter_map] at hemp
    rcases List.map_eq_nil_iff.mp hemp with hfil
    simp only [Except.ok.injEq, Prod.mk.injEq] at h
    obtain ⟨-, -, -, h4⟩ := h
    subst h4
    simp [hfil]
  case isFalse hemp =>
    simp only [Except.ok.injEq, Prod.mk.injEq] at h
    obtain ⟨-, -, -, h4⟩ := h
    subst h4
    rw [visibleStarsGui_eq_filter_map, List.map_map]
    rfl

/-- C3 witness: one sample magnitude per bucket, the two boundary cases, and
the concrete GUI query emitting the white color of its magnitude-1 star. -/
theorem starColor_buckets_witness :
    star_color 0 = "#87CEEB" ∧ star_color (3/2) = "white" ∧
      star_color (5/2) = "#FFE4B5" ∧ star_color (7/2) = "#FFA500" ∧
      star_color (9/2) = "#FF6B6B" ∧
      (["white"] : List String) = ([starW].filter fun sd =>
          decide (0 < (ephUp obsW (queryTsTime timeW) sd).1)).map
        fun sd => star_color sd.magnitude :=
  ⟨starColor_buckets.1 0 (by norm_num),
    (starColor_buckets.2.1 (3/2) (by norm_num) (by norm_num)),
    (starColor_buckets.2.2.1 (5/2) (by norm_num) (by norm_num)),
    (starColor_buckets.2.2.2.1 (7/2) (by norm_num) (by norm_num)),
    (starColor_buckets.2.2.2.2.1 (9/2) (by norm_num)),
    (starColor_buckets.2.2.2.2.2.2.2 ephUp simW timeW "UTC" [starW] obsW
      [10] [45] [50] ["white"] rfl rfl
      (by norm_num [get_star_positions_gui, simW, visibleStarsGui, ephUp, starW,
        obsW, star_size, np_clip, star_color, List.filterMap_cons,
        List.filterMap_nil]))⟩

/-- C4: a naive timestamp is interpreted as UTC: calling either variant of
`get_star_positions` with a timestamp carrying no zone offset returns exactly
what the equivalent explicit-UTC timestamp returns. -/
theorem getStarPositions_naive_is_utc (eph : EphemerisOracle)
    (sim : SkySimulator) (tz : String) (y mo dd hh mi ss us : ℤ) :
    get_star_positions eph sim ⟨y, mo, dd, hh, mi, ss, us, none⟩ tz
      = get_star_positions eph sim ⟨y, mo, dd, hh, mi, ss, us, some 0⟩ tz ∧
    get_star_positions_gui eph sim ⟨y, mo, dd, hh, mi, ss, us, none⟩ tz
      = get_star_positions_gui eph sim ⟨y, mo, dd, hh, mi, ss, us, some 0⟩ tz := by
  have hq : queryTsTime ⟨y, mo, dd, hh, mi, ss, us, none⟩
      = queryTsTime ⟨y, mo, dd, hh, mi, ss, us, some 0⟩ := rfl
  obtain ⟨dfo, loco, co⟩ := sim
  cases dfo <;> cases loco <;>
    constructor <;>
      simp [get_star_positions, get_star_positions_gui, hq]

/-- C5: when the precondition holds but every catalog star is at or below
the horizon, both variants return empty sequences rather than an error. -/
theorem getStarPositions_none_visible (eph : EphemerisOracle)
    (sim : SkySimulator) (time : PyDatetime) (tz : String)
    (df : List StarData) (loc : Observer)
    (hdf : sim.stars_df = some df) (hloc : sim.observer_location = some loc)
    (hbelow : ∀ sd ∈ df, (eph loc (queryTsTime time) sd).1 ≤ 0) :
    get_star_positions eph sim time tz = Except.ok ([], [], []) ∧
    get_star_positions_gui eph sim time tz = Except.ok ([], [], [], []) := by
  have hfil : df.filter (fun sd => decide (0 < (eph loc (queryTsTime time) sd).1))
      = [] := by
    rw [List.filter_eq_nil_iff]
    intro sd hsd
    simpa using not_lt.mpr (hbelow sd hsd)
  have h1 : visibleStars eph loc (queryTsTime time) df = [] := by
    rw [visibleStars_eq_filter_map, hfil]; rfl
  have h2 : visibleStarsGui eph loc (queryTsTime time) df = [] := by
    rw [visibleStarsGui_eq_filter_map, hfil]; rfl
  constructor <;>
    simp [get_star_positions, get_star_positions_gui, hdf, hloc, h1, h2]

/-- C5 witness: with a one-star catalog and an oracle reporting altitude −5°,
the concrete query returns empty sequences in both variants. -/
theorem getStarPositions_none_visible_witness :
    get_star_positions ephDown simW timeW "UTC" = Except.ok ([], [], []) ∧
    get_star_positions_gui ephDown simW timeW "UTC"
      = Except.ok ([], [], [], []) :=
  getStarPositions_none_visible ephDown simW timeW "UTC" [starW] obsW rfl rfl
    (fun sd _ => by norm_num [ephDown])

/-- C6: `get_star_positions` raises the usage precondition error exactly when
the catalog is unloaded or the observer is unset, and succeeds with some
output whenever both are set. -/
theorem getStarPositions_precondition (eph : EphemerisOracle)
    (sim : SkySimulator) (time : PyDatetime) (tz : String) :
    ((sim.stars_df = none ∨ sim.observer_location = none) →
      get_star_positions eph sim time tz
        = Except.error "Must load star catalog and set observer location first") ∧
    (∀ (df : List StarData) (loc : Observer),
      sim.stars_df = some df → sim.observer_location = some loc →
      ∃ out, get_star_positions eph sim time tz = Except.ok out) := by
  obtain ⟨dfo, loco, co⟩ := sim
  constructor
  · rintro (hdf | hloc)
    · cases hdf; cases loco <;> rfl
    · cases hloc; cases dfo <;> rfl
  · intro df loc hdf hloc
    cases hdf; cases hloc
    by_cases hc : (visibleStars eph loc (queryTsTime time) df).isEmpty
    · exact ⟨([], [], []), by simp [get_star_positions, hc]⟩
    · exact ⟨((visibleStars eph loc (queryTsTime time) df).map (fun v => v.1),
        (visibleStars eph loc (queryTsTime time) df).map (fun v => v.2.1),
        (visibleStars eph loc (queryTsTime time) df).map fun v =>
          star_size v.2.2),
        by simp [get_star_positions, hc]⟩

/-- C6 witness: the fresh simulator errors, the initialized one succeeds. -/
theorem getStarPositions_precondition_witness :
    get_star_positions ephUp simFresh timeW "UTC"
      = Except.error "Must load star catalog and set observer location first" ∧
    ∃ out, get_star_positions ephUp simW timeW "UTC" = Except.ok out :=
  ⟨(getStarPositions_precondition ephUp simFresh timeW "UTC").1 (Or.inl rfl),
    (getStarPositions_precondition ephUp simW timeW "UTC").2 [starW] obsW
      rfl rfl⟩

/-- C7: the size function stays within [1, 50] and is monotonically
non-increasing in the magnitude. -/
theorem starSize_bounds_antitone (m m1 m2 : ℚ) (hm : m1 ≤ m2) :
    (1 ≤ star_size m ∧ star_size m ≤ 50) ∧ star_size m2 ≤ star_size m1 := by
  unfold star_size np_clip
  refine ⟨⟨le_min (le_max_right _ _) (by norm_num), min_le_right _ _⟩, ?_⟩
  exact min_le_min (max_le_max (by linarith) le_rfl) le_rfl

/-- C7 witness: bounds at magnitude 2 and antitonicity from 2 to 3. -/
theorem starSize_bounds_antitone_witness :
    (1 ≤ star_size 2 ∧ star_size 2 ≤ 50) ∧ star_size 3 ≤ star_size 2 :=
  starSize_bounds_antitone 2 2 3 (by norm_num)

/-- C8: the sequences returned by a successful query are parallel: each is
the component-wise map of the one visible-star list, so all have the same
length, there is exactly one entry per visible star, and the entries at any
index all describe the same visible star (its azimuth, altitude, size, and
color in the GUI variant). -/
theorem getStarPositions_parallel (eph : EphemerisOracle) (sim : SkySimulator)
    (time : PyDatetime) (tz : String) (df : List StarData) (loc : Observer)
    (hdf : sim.stars_df = some df) (hloc : sim.observer_location = some loc) :
    (∀ az alt sizes : List ℚ,
      get_star_positions eph sim time tz = Except.ok (az, alt, sizes) →
      (az = (visibleStars eph loc (queryTsTime time) df).map (fun v => v.1) ∧
        alt = (visibleStars eph loc (queryTsTime time) df).map (fun v => v.2.1) ∧
        sizes = (visibleStars eph loc (queryTsTime time) df).map
          (fun v => star_size v.2.2)) ∧
      az.length = (visibleStars eph loc (queryTsTime time) df).length ∧
      az.length = alt.length ∧ alt.length = sizes.length) ∧
    (∀ (az alt sizes : List ℚ) (colors : List String),
      get_star_positions_gui eph sim time tz = Except.ok (az, alt, sizes, colors) →
      (az = (visibleStarsGui eph loc (queryTsTime time) df).map (fun v => v.1) ∧
        alt = (visibleStarsGui eph loc (queryTsTime time) df).map
          (fun v => v.2.1) ∧
        sizes = (visibleStarsGui eph loc (queryTsTime time) df).map
          (fun v => star_size v.2.2.1) ∧
        colors = (visibleStarsGui eph loc (queryTsTime time) df).map
          (fun v => v.2.2.2)) ∧
      az.length = (visibleStarsGui eph loc (queryTsTime time) df).length ∧
      az.length = alt.length ∧ alt.length = sizes.length ∧
        sizes.length = colors.length) := by
  constructor
  · intro az alt sizes h
    simp only [get_star_positions, hdf, hloc] at h
    split at h
    case isTrue hemp =>
      rw [List.isEmpty_iff] at hemp
      simp only [Except.ok.injEq, Prod.mk.injEq] at h
      obtain ⟨h1, h2, h3⟩ := h
      subst h1; subst h2; subst h3
      simp [hemp]
    case isFalse hemp =>
      simp only [Except.ok.injEq, Prod.mk.injEq] at h
      obtain ⟨h1, h2, h3⟩ := h
      subst h1; subst h2; subst h3
      simp
  · intro az alt sizes colors h
    simp only [get_star_positions_gui, hdf, hloc] at h
    split at h
    case isTrue hemp =>
      rw [List.isEmpty_iff] at hemp
      simp only [Except.ok.injEq, Prod.mk.injEq] at h
      obtain ⟨h1, h2, h3, h4⟩ := h
      subst h1; subst h2; subst h3; subst h4
      simp [hemp]
    case isFalse hemp =>
      simp only [Except.ok.injEq, Prod.mk.injEq] at h
      obtain ⟨h1, h2, h3, h4⟩ := h
      subst h1; subst h2; subst h3; subst h4
      simp

/-- C8 witness: on the concrete one-star query the returned sequences are
the maps of the visible-star list and have equal lengths, in both
variants. -/
theorem getStarPositions_parallel_witness :
    ((([10] : List ℚ) = (visibleStars ephUp obsW (queryTsTime timeW)
          [starW]).map (fun v => v.1) ∧
      ([45] : List ℚ) = (visibleStars ephUp obsW (queryTsTime timeW)
          [starW]).map (fun v => v.2.1) ∧
      ([50] : List ℚ) = (visibleStars ephUp obsW (queryTsTime timeW)
          [starW]).map (fun v => star_size v.2.2)) ∧
      ([10] : List ℚ).length
        = (visibleStars ephUp obsW (queryTsTime timeW) [starW]).length ∧
      ([10] : List ℚ).length = ([45] : List ℚ).length ∧
      ([45] : List ℚ).length = ([50] : List ℚ).length) ∧
    ((([10] : List ℚ) = (visibleStarsGui ephUp obsW (queryTsTime timeW)
          [starW]).map (fun v => v.1) ∧
      ([45] : List ℚ) = (visibleStarsGui ephUp obsW (queryTsTime timeW)
          [starW]).map (fun v => v.2.1) ∧
      ([50] : List ℚ) = (visibleStarsGui ephUp obsW (queryTsTime timeW)
          [starW]).map (fun v => star_size v.2.2.1) ∧
      (["white"] : List String) = (visibleStarsGui ephUp obsW
          (queryTsTime timeW) [starW]).map (fun v => v.2.2.2)) ∧
      ([10] : List ℚ).length
        = (visibleStarsGui ephUp obsW (queryTsTime timeW) [starW]).length ∧
      ([10] : List ℚ).length = ([45] : List ℚ).length ∧
      ([45] : List ℚ).length = ([50] : List ℚ).length ∧
      ([50] : List ℚ).length = (["white"] : List String).length) :=
  ⟨(getStarPositions_parallel ephUp simW timeW "UTC" [starW] obsW rfl rfl).1
      [10] [45] [50]
      (by norm_num [get_star_positions, simW, visibleStars, ephUp, starW, obsW,
        star_size, np_clip, List.filterMap_cons, List.filterMap_nil]),
    (getStarPositions_parallel ephUp simW timeW "UTC" [starW] obsW rfl rfl).2
      [10] [45] [50] ["white"]
      (by norm_num [get_star_positions_gui, simW, visibleStarsGui, ephUp,
        starW, obsW, star_size, np_clip, star_color, List.filterMap_cons,
        List.filterMap_nil])⟩

/-- C9: `set_observer_location` replaces only the observer location and
coordinates; the loaded star catalog is untouched. -/
theorem setObserverLocation_frame (sim : SkySimulator) (lat lon elev : ℚ) :
    (set_observer_location sim lat lon elev).stars_df = sim.stars_df ∧
    (set_observer_location sim lat lon elev).observer_location
      = some ⟨lat, lon, elev⟩ ∧
    (set_observer_location sim lat lon elev).observer_coords
      = some (lat, lon) :=
  ⟨rfl, rfl, rfl⟩

/-- C10: only calendar fields down to whole seconds reach the time-scale
conversion, so two timestamps with the same UTC fields down to seconds —
regardless of their microseconds — produce identical outputs in both
variants. -/
theorem getStarPositions_ignores_microseconds (eph : EphemerisOracle)
    (sim : SkySimulator) (t1 t2 : PyDatetime) (tz : String)
    (h : queryTsTime t1 = queryTsTime t2) :
    get_star_positions eph sim t1 tz = get_star_positions eph sim t2 tz ∧
    get_star_positions_gui eph sim t1 tz = get_star_positions_gui eph sim t2 tz := by
  obtain ⟨dfo, loco, co⟩ := sim
  cases dfo <;> cases loco <;>
    constructor <;>
      simp [get_star_positions, get_star_positions_gui, h]

/-- A second timestamp fixture: same instant as `timeW` down to whole
seconds, differing in microseconds. -/
def timeW2 : PyDatetime := ⟨2024, 6, 15, 22, 0, 0, 123456, none⟩

/-- C10 witness: the concrete queries at two timestamps differing only in
microseconds coincide. -/
theorem getStarPositions_ignores_microseconds_witness :
    get_star_positions ephUp simW timeW "UTC"
      = get_star_positions ephUp simW timeW2 "UTC" ∧
    get_star_positions_gui ephUp simW timeW "UTC"
      = get_star_positions_gui ephUp simW timeW2 "UTC" :=
  getStarPositions_ignores_microseconds ephUp simW timeW timeW2 "UTC"
    (by decide)

end NightSky
